import Mathlib

/-!
Verification of the Mine & Gem game (src/main.py).

The engine state and operations are shallowly embedded: decimal amounts
(Python floats holding currency, multipliers and earnings) are modelled as
rationals, the 2-D `revealed` boolean matrix as a finite set of coordinates,
and the mouse/keyboard event handlers of `game_loop` as explicit step
functions that return the successor state together with the terminal
outcome `(result, final_balance)` handed to `end_screen`, when one occurs.
-/

namespace MineGem

/-- The allowed board dimensions, main.py line 35: GRID_OPTIONS = [4, 5, 6, 7, 8]. -/
def GRID_OPTIONS : List Nat := [4, 5, 6, 7, 8]

/-- Initial grid-size selection index, main.py line 73 (defaults to GRID_OPTIONS[1] = 5). -/
def grid_size_index0 : Nat := 1

/-- One press of G on the Grid Size field, main.py line 184:
grid_size_index = (grid_size_index + 1) % len(GRID_OPTIONS). -/
def cycleGridIndex (i : Nat) : Nat := (i + 1) % GRID_OPTIONS.length

/-- The grid-size index after k presses of G, starting from the default index. -/
def gridIndexAfter : Nat → Nat
  | 0 => grid_size_index0
  | k + 1 => cycleGridIndex (gridIndexAfter k)

/-- The grid size handed to game_loop after k presses of G, main.py line 218:
grid = GRID_OPTIONS[grid_size_index]. -/
def selectedGrid (k : Nat) : Nat := GRID_OPTIONS.getD (gridIndexAfter k) 0

/-- The persistent profile fields of MineGemGame (main.py lines 63-72). -/
structure Stats where
  balance : ℚ
  high_score : ℚ
  sound_enabled : Bool
  total_games : Nat
  total_wins : Nat
  total_losses : Nat
  total_earnings : ℚ
  promocode_used : Bool
deriving DecidableEq

/-- The defaulted profile (defaults of _load_stats, main.py lines 84-93, which
coincide with the get defaults in __init__, lines 63-72). -/
def defaultStats : Stats :=
  { balance := 1000, high_score := 0, sound_enabled := true, total_games := 0,
    total_wins := 0, total_losses := 0, total_earnings := 0, promocode_used := false }

/-- Python values as far as the stats file is concerned: JSON integers,
JSON decimals, booleans, strings, arrays (contents irrelevant here) and
string-keyed objects. -/
inductive PyVal where
  | nat (n : Nat)
  | num (q : ℚ)
  | boolean (b : Bool)
  | str (s : String)
  | arr (len : Nat)
  | dict (entries : List (String × PyVal))

/-- Python exceptions that can escape the stats-loading path. -/
inductive PyExc where
  | unicodeDecodeError
  | attributeError
deriving DecidableEq

/-- Outcome of attempting to open, read and json-parse the stats file:
the file may be absent, opening/reading may raise OSError/IOError, the
bytes may fail to decode as text (UnicodeDecodeError), the text may fail
to parse as JSON (json.JSONDecodeError), or parsing succeeds with a value. -/
inductive StatsFileState where
  | missing
  | osError
  | notUtf8
  | badJson
  | parsed (v : PyVal)

/-- The defaults dictionary returned by _load_stats, main.py lines 84-93. -/
def statsDefaults : PyVal :=
  PyVal.dict
    [("balance", PyVal.num 1000), ("high_score", PyVal.num 0),
     ("sound_enabled", PyVal.boolean true), ("total_games", PyVal.nat 0),
     ("total_wins", PyVal.nat 0), ("total_losses", PyVal.nat 0),
     ("total_earnings", PyVal.num 0), ("promocode_used", PyVal.boolean false)]

/-- _load_stats, main.py lines 75-93.  The handler is
except (json.JSONDecodeError, IOError, OSError), so a missing file, an
OSError (IOError is an alias of OSError) and a JSON syntax error all fall
back to the defaults, while a UnicodeDecodeError raised when the file's
bytes do not decode as text is a ValueError that is NOT in the tuple and
propagates; a successfully parsed value is returned as-is, whether or not
it is a dict. -/
def load_stats : StatsFileState → Except PyExc PyVal
  | StatsFileState.missing => Except.ok statsDefaults
  | StatsFileState.osError => Except.ok statsDefaults
  | StatsFileState.badJson => Except.ok statsDefaults
  | StatsFileState.notUtf8 => Except.error PyExc.unicodeDecodeError
  | StatsFileState.parsed v => Except.ok v

/-- Python's value.get(key, default): on a dict it returns the entry for the
key, or the default when the key is absent; on any non-dict value the
attribute access .get raises AttributeError (main.py lines 63-72 call .get
on whatever _load_stats returned). -/
def pyGetAttr (v : PyVal) (key : String) (dflt : PyVal) : Except PyExc PyVal :=
  match v with
  | PyVal.dict entries => Except.ok ((entries.lookup key).getD dflt)
  | _ => Except.error PyExc.attributeError

/-- Coercion of a loaded value to a decimal field.  Python assigns the raw
JSON value to the attribute; the coercion is exact on values of the
documented type, which are the only ones the claims exercise. -/
def PyVal.toQ : PyVal → ℚ
  | PyVal.num q => q
  | PyVal.nat n => (n : ℚ)
  | _ => 0

/-- Coercion of a loaded value to a counter field (documented type: Nat). -/
def PyVal.toN : PyVal → Nat
  | PyVal.nat n => n
  | _ => 0

/-- Coercion of a loaded value to a boolean field (documented type: Bool). -/
def PyVal.toB : PyVal → Bool
  | PyVal.boolean b => b
  | _ => false

/-- The stats portion of MineGemGame.__init__ (main.py lines 62-72): load
the stats value and read each profile field with .get and its default. -/
def initStats (fs : StatsFileState) : Except PyExc Stats := do
  let s ← load_stats fs
  let bal ← pyGetAttr s "balance" (PyVal.num 1000)
  let hs ← pyGetAttr s "high_score" (PyVal.num 0)
  let se ← pyGetAttr s "sound_enabled" (PyVal.boolean true)
  let tg ← pyGetAttr s "total_games" (PyVal.nat 0)
  let tw ← pyGetAttr s "total_wins" (PyVal.nat 0)
  let tl ← pyGetAttr s "total_losses" (PyVal.nat 0)
  let te ← pyGetAttr s "total_earnings" (PyVal.num 0)
  let pu ← pyGetAttr s "promocode_used" (PyVal.boolean false)
  Except.ok
    { balance := bal.toQ, high_score := hs.toQ, sound_enabled := se.toB,
      total_games := tg.toN, total_wins := tw.toN, total_losses := tl.toN,
      total_earnings := te.toQ, promocode_used := pu.toB }

/-- The leaderboard, a deque with maxlen=5 (main.py line 114), modelled as a
list in insertion order, oldest first.  Appending to a full deque drops the
oldest element (the head). -/
def lbAppend (lb : List ℚ) (v : ℚ) : List ℚ :=
  let l := lb ++ [v]
  l.drop (l.length - 5)

/-- _load_leaderboard, main.py lines 113-126: lines that fail to parse as a
float (modelled as none) are skipped, parsed scores are appended to the
bounded deque. -/
def loadLeaderboard (lines : List (Option ℚ)) : List ℚ :=
  lines.foldl
    (fun lb o =>
      match o with
      | some score => lbAppend lb score
      | none => lb)
    []

/-- The order in which leaderboard scores are displayed (main.py line 306)
and written by _save_leaderboard (line 131): sorted(leaderboard,
reverse=True), a pure function of the stored deque. -/
def displayLeaderboard (lb : List ℚ) : List ℚ := List.insertionSort (· ≥ ·) lb

/-- A terminal session result, the first argument of end_screen. -/
inductive Outcome where
  | won
  | lost
deriving DecidableEq

/-- The outcome fold of end_screen, main.py lines 254-266, applied to the
profile and the leaderboard: update high_score, append final_balance to the
leaderboard, bump total_games, on a win bump total_wins and add
(final_balance - self.balance) to total_earnings using the balance held
before the fold assigns it, otherwise bump total_losses, and finally set
balance to final_balance. -/
def endScreen (st0 : Stats) (lb : List ℚ) (result : Outcome) (final_balance : ℚ) :
    Stats × List ℚ :=
  let st1 := { st0 with high_score := max st0.high_score final_balance }
  let lb1 := lbAppend lb final_balance
  let st2 := { st1 with total_games := st1.total_games + 1 }
  let st3 :=
    if result = Outcome.won then
      { st2 with total_wins := st2.total_wins + 1,
                 total_earnings := st2.total_earnings + (final_balance - st0.balance) }
    else
      { st2 with total_losses := st2.total_losses + 1 }
  ({ st3 with balance := final_balance }, lb1)

/-- The difficulty setting cycled with D, main.py line 141:
difficulties = ("Easy": 0.5, "Medium": 1.0, "Hard": 1.5). -/
inductive Difficulty where
  | easy
  | medium
  | hard
deriving DecidableEq

/-- The difficulty multipliers of main.py line 141. -/
def diffMult : Difficulty → ℚ
  | Difficulty.easy => 1 / 2
  | Difficulty.medium => 1
  | Difficulty.hard => 3 / 2

/-- The effective mine count of main.py line 219:
mines = int(int(field) * difficulties[difficulty]).  Python's int() on a
float truncates toward zero, which for these non-negative products is the
floor; the products n * 0.5, n * 1.0, n * 1.5 are exact in binary floating
point for every input in range, so the rational floor is the exact value. -/
def minesFromInput (mIn : Nat) (d : Difficulty) : ℤ := ⌊(mIn : ℚ) * diffMult d⌋

/-- The rejection reasons of the setup flow, main.py lines 221-234. -/
inductive ConfigError where
  | invalidInput
  | betExceedsBalance
  | tooManyMines
  | nonPositive
deriving DecidableEq

/-- The RETURN handler of show_start_menu, main.py lines 217-234: parse the
two numeric fields (a failed parse raises ValueError, caught as
InvalidInput), derive the effective mine count, then check bet > balance,
then mines >= grid*grid, then bet <= 0 or mines <= 0, and on success return
(grid, mines, bet). -/
def submitConfig (grid : Nat) (minesInput : Option Nat) (betInput : Option ℚ)
    (d : Difficulty) (balance : ℚ) : Except ConfigError (Nat × ℤ × ℚ) :=
  match minesInput, betInput with
  | some mIn, some bet =>
    let mines := minesFromInput mIn d
    if balance < bet then Except.error ConfigError.betExceedsBalance
    else if (grid * grid : ℤ) ≤ mines then Except.error ConfigError.tooManyMines
    else if bet ≤ 0 ∨ mines ≤ 0 then Except.error ConfigError.nonPositive
    else Except.ok (grid, mines, bet)
  | _, _ => Except.error ConfigError.invalidInput

/-- The state of one game session inside game_loop, main.py lines 322-334.
The 2-D boolean matrix revealed is modelled as the set of coordinates whose
entry is True; game_over is the flag of line 325. -/
structure Session where
  grid_size : Nat
  mine_positions : Finset (Nat × Nat)
  bet_amount : ℚ
  revealed : Finset (Nat × Nat)
  game_over : Bool
  earnings : ℚ
  multiplier : ℚ
  max_earnings : ℚ

/-- All coordinates of a grid_size x grid_size board (main.py line 327). -/
def allCells (n : Nat) : Finset (Nat × Nat) := Finset.range n ×ˢ Finset.range n

/-- Session start, main.py lines 322-334: the mine placement is injected (in
the source it is random.sample over all positions), the bet is deducted
from the balance, earnings start at 0, the multiplier at 1, and
max_earnings is fixed as (grid_size * grid_size - num_mines) * bet * 2.0.
Returns the fresh session and the post-deduction balance. -/
def startSession (grid_size num_mines : Nat) (mine_positions : Finset (Nat × Nat))
    (bet balance : ℚ) : Session × ℚ :=
  ({ grid_size := grid_size, mine_positions := mine_positions, bet_amount := bet,
     revealed := ∅, game_over := false, earnings := 0, multiplier := 1,
     max_earnings := ((grid_size : ℚ) * grid_size - num_mines) * bet * 2 },
   balance - bet)

/-- The result of one engine step: the successor session state, the running
balance, and the terminal (result, final_balance) pair passed to end_screen
when the step ends the session. -/
structure StepResult where
  sess : Session
  balance : ℚ
  outcome : Option (Outcome × ℚ)

/-- The MOUSEBUTTONDOWN handler of game_loop, main.py lines 352-375.  The
handler only runs when game_over is false; a click outside the board or on
an already revealed cell does nothing.  Otherwise the cell is revealed; a
mine reveals the whole board, sets game_over and calls
end_screen("lost", balance + earnings) (line 371), while a safe cell bumps
the multiplier by 0.1 and clamps earnings at max_earnings (lines 374-375). -/
def revealCell (s : Session) (balance : ℚ) (row col : Nat) : StepResult :=
  if s.game_over then { sess := s, balance := balance, outcome := none }
  else if row < s.grid_size ∧ col < s.grid_size ∧ (row, col) ∉ s.revealed then
    let s1 : Session := { s with revealed := insert (row, col) s.revealed }
    if (row, col) ∈ s.mine_positions then
      { sess := { s1 with revealed := allCells s.grid_size, game_over := true },
        balance := balance,
        outcome := some (Outcome.lost, balance + s.earnings) }
    else
      let m := s.multiplier + 1 / 10
      let e := min (s.earnings + s.bet_amount * m) s.max_earnings
      { sess := { s1 with multiplier := m, earnings := e },
        balance := balance, outcome := none }
  else { sess := s, balance := balance, outcome := none }

/-- A sequence of clicks fed to the session, folding revealCell. -/
def revealSeq (s : Session) (balance : ℚ) : List (Nat × Nat) → Session × ℚ
  | [] => (s, balance)
  | (r, c) :: ps =>
    let res := revealCell s balance r c
    revealSeq res.sess res.balance ps

/-- The C (cash out) handler of game_loop, main.py lines 346-350: when
game_over is false, earnings are credited and end_screen("won", balance) is
called with the credited balance. -/
def cashOut (s : Session) (balance : ℚ) : StepResult :=
  if s.game_over then { sess := s, balance := balance, outcome := none }
  else
    { sess := s, balance := balance + s.earnings,
      outcome := some (Outcome.won, balance + s.earnings) }

/-- _check_game_won, main.py lines 426-429: every cell is revealed or a
mine. -/
def _check_game_won (grid_size : Nat) (revealed mine_positions : Finset (Nat × Nat)) :
    Bool :=
  decide (∀ p ∈ allCells grid_size, p ∈ revealed ∨ p ∈ mine_positions)

/-- The per-frame win check of game_loop, main.py lines 377-382: when
_check_game_won holds and game_over is false, earnings are credited and
end_screen("won", balance) is called with the credited balance, with no
player action involved. -/
def winStep (s : Session) (balance : ℚ) : StepResult :=
  if _check_game_won s.grid_size s.revealed s.mine_positions && !s.game_over then
    { sess := s, balance := balance + s.earnings,
      outcome := some (Outcome.won, balance + s.earnings) }
  else { sess := s, balance := balance, outcome := none }

/-- Python str.strip() on the entered promo code (main.py line 199): drop
whitespace from both ends. -/
def stripEnds (s : String) : String :=
  String.mk (((s.toList.dropWhile Char.isWhitespace).reverse.dropWhile
    Char.isWhitespace).reverse)

/-- Python str.upper() on the entered promo code (main.py line 199). -/
def upperStr (s : String) : String := String.mk (s.toList.map Char.toUpper)

/-- Two-digit zero padding, as produced by strftime's %I and %M fields. -/
def pad2 (n : Nat) : String := if n < 10 then "0" ++ toString n else toString n

/-- The 12-hour clock hour of strftime's %I for an hour 0-23: 0 prints as
12, 13-23 print as 1-11. -/
def hour12 (h : Nat) : Nat := (h + 11) % 12 + 1

/-- datetime.now().strftime("%I:%M %p") at wall-clock hour h, minute m. -/
def strftimeIMp (h m : Nat) : String :=
  pad2 (hour12 h) ++ ":" ++ pad2 m ++ " " ++ (if h < 12 then "AM" else "PM")

/-- The expected promo code of main.py line 198: the strftime output with
str.lstrip("0") applied, removing the leading zero that %I pads onto hours
1-9 (hours 10-12 have none). -/
def currentPromoCode (h m : Nat) : String :=
  String.mk ((strftimeIMp h m).toList.dropWhile (fun c => c = '0'))

/-- The outcome of a promo claim attempt (main.py lines 196-211). -/
inductive PromoResult where
  | claimed
  | alreadyUsed
  | invalidCode
deriving DecidableEq

/-- The P handler on the Promocode field, main.py lines 196-211: if the
promo was already used, reject with AlreadyUsed; otherwise compare the
stripped, upper-cased entered text with the current time code; on a match
add 500 to the balance and set promocode_used, otherwise reject with
InvalidCode and change nothing. -/
def claimPromo (st : Stats) (entered : String) (h m : Nat) : Stats × PromoResult :=
  if st.promocode_used then (st, PromoResult.alreadyUsed)
  else if upperStr (stripEnds entered) = currentPromoCode h m then
    ({ st with balance := st.balance + 500, promocode_used := true },
     PromoResult.claimed)
  else (st, PromoResult.invalidCode)

/-- A sample mid-session state: a 4 x 4 board with one mine at (0, 0), a bet
of 10 placed from a balance of 1000 (so the running balance is 990), and one
safe cell (0, 1) already revealed, which set the multiplier to 1.1 and the
earnings to min(0 + 10 * 1.1, (16 - 1) * 10 * 2) = 11. -/
def demoSession : Session :=
  { grid_size := 4, mine_positions := {(0, 0)}, bet_amount := 10,
    revealed := {(0, 1)}, game_over := false, earnings := 11,
    multiplier := 11 / 10, max_earnings := 300 }

/-- A sample session on a 2 x 2 board with one mine at (0, 0) whose three
safe cells have all been revealed, so the win check holds: the three safe
reveals took the multiplier to 1.3 and the earnings to 11 + 12 + 13 = 36,
below the clamp (4 - 1) * 10 * 2 = 60. -/
def demoWinSession : Session :=
  { grid_size := 2, mine_positions := {(0, 0)}, bet_amount := 10,
    revealed := {(0, 1), (1, 0), (1, 1)}, game_over := false, earnings := 36,
    multiplier := 13 / 10, max_earnings := 60 }

/-! Helper lemmas shared by the claim theorems. -/

/-- Revealing a cell never changes the session's max_earnings clamp. -/
theorem revealCell_max (s : Session) (b : ℚ) (r c : Nat) :
    (revealCell s b r c).sess.max_earnings = s.max_earnings := by
  unfold revealCell
  split
  · rfl
  · split
    · split
      · rfl
      · rfl
    · rfl

/-- One reveal keeps the earnings below the clamp. -/
theorem revealCell_earnings_le (s : Session) (b : ℚ) (r c : Nat)
    (h : s.earnings ≤ s.max_earnings) :
    (revealCell s b r c).sess.earnings ≤ (revealCell s b r c).sess.max_earnings := by
  unfold revealCell
  split
  · exact h
  · split
    · split
      · exact h
      · exact min_le_right _ _
    · exact h

/-- Any sequence of reveals keeps the earnings below the clamp. -/
theorem revealSeq_earnings_le (ps : List (Nat × Nat)) (s : Session) (b : ℚ)
    (h : s.earnings ≤ s.max_earnings) :
    (revealSeq s b ps).1.earnings ≤ (revealSeq s b ps).1.max_earnings := by
  induction ps generalizing s b with
  | nil => exact h
  | cons p ps ih =>
    obtain ⟨r, c⟩ := p
    exact ih _ _ (revealCell_earnings_le s b r c h)

/-- A sequence of reveals never changes the max_earnings clamp. -/
theorem revealSeq_max (ps : List (Nat × Nat)) (s : Session) (b : ℚ) :
    (revealSeq s b ps).1.max_earnings = s.max_earnings := by
  induction ps generalizing s b with
  | nil => rfl
  | cons p ps ih =>
    obtain ⟨r, c⟩ := p
    rw [revealSeq, ih, revealCell_max]

/-- The loaded leaderboard never exceeds the deque capacity of 5. -/
theorem loadLeaderboard_length_le (lines : List (Option ℚ)) :
    (loadLeaderboard lines).length ≤ 5 := by
  have key : ∀ (ls : List (Option ℚ)) (lb : List ℚ), lb.length ≤ 5 →
      (ls.foldl
        (fun lb o => match o with | some score => lbAppend lb score | none => lb)
        lb).length ≤ 5 := by
    intro ls
    induction ls with
    | nil => intro lb h; exact h
    | cons o ls ih =>
      intro lb h
      cases o with
      | none => exact ih lb h
      | some q =>
        refine ih _ ?_
        simp [lbAppend]
        omega
  exact key _ [] (by simp)

/-- The grid index after k presses of G in closed form. -/
theorem gridIndexAfter_eq (k : Nat) : gridIndexAfter k = (1 + k) % 5 := by
  induction k with
  | zero => rfl
  | succ k ih =>
    show cycleGridIndex (gridIndexAfter k) = (1 + (k + 1)) % 5
    rw [ih]
    simp [cycleGridIndex, GRID_OPTIONS]
    omega

/-! Claim theorems. -/

/-- C1, counterexample: the claim says a session that ends by revealing a
mine passes the post-bet-deduction balance with no earnings added to
end_screen.  In the session started with balance 1000, bet 10 and one mine
at (0, 0), revealing the safe cell (0, 1) leaves balance 990 and earnings
11, and then revealing the mine calls end_screen("lost", 990 + 11 = 1001),
not end_screen("lost", 990): line 371 passes self.balance + earnings. -/
theorem lost_final_balance_counterexample :
    (revealCell
        (revealCell (startSession 4 1 {(0, 0)} 10 1000).1
          (startSession 4 1 {(0, 0)} 10 1000).2 0 1).sess
        (revealCell (startSession 4 1 {(0, 0)} 10 1000).1
          (startSession 4 1 {(0, 0)} 10 1000).2 0 1).balance 0 0).outcome
      = some (Outcome.lost, 1001) ∧
    (revealCell (startSession 4 1 {(0, 0)} 10 1000).1
      (startSession 4 1 {(0, 0)} 10 1000).2 0 1).balance = 990 ∧
    (1001 : ℚ) ≠ 990 := by
  norm_num [startSession, revealCell, Prod.ext_iff]

/-- C1, amended: when a Playing session reveals an in-bounds, not yet
revealed mine cell, the whole board is disclosed, the session ends, and the
final balance passed to end_screen is balance + earnings: the running
earnings are credited into the reported final balance rather than
forfeited, and the running balance itself is not changed by the handler. -/
theorem lost_final_balance_includes_earnings (s : Session) (b : ℚ) (r c : Nat)
    (hgo : s.game_over = false) (hr : r < s.grid_size) (hc : c < s.grid_size)
    (hrev : (r, c) ∉ s.revealed) (hm : (r, c) ∈ s.mine_positions) :
    (revealCell s b r c).outcome = some (Outcome.lost, b + s.earnings) ∧
    (revealCell s b r c).sess.game_over = true ∧
    (revealCell s b r c).sess.revealed = allCells s.grid_size ∧
    (revealCell s b r c).balance = b := by
  simp [revealCell, hgo, hr, hc, hrev, hm]

/-- Witness for the amended C1 theorem at a concrete mid-session state. -/
theorem lost_final_balance_includes_earnings_witness :
    demoSession.game_over = false ∧ (0, 0) ∈ demoSession.mine_positions ∧
    (revealCell demoSession 990 0 0).outcome = some (Outcome.lost, 990 + 11) := by
  have h := lost_final_balance_includes_earnings demoSession 990 0 0 rfl
    (by decide) (by decide) (by decide) (by decide)
  exact ⟨rfl, by decide, h.1⟩

/-- C2, counterexample: the claim says a Won session bumps total_earnings
by final_balance minus the balance at session start before the bet.  With
start balance 1000, bet 10 and one safe reveal (earnings 11), cashing out
calls end_screen("won", 1001) with self.balance already equal to 1001, so
the fold adds final_balance - self.balance = 0 to total_earnings, while the
claim demands 1001 - 1000 = 1. -/
theorem won_fold_counterexample :
    (cashOut (revealCell (startSession 4 1 {(0, 0)} 10 1000).1
        (startSession 4 1 {(0, 0)} 10 1000).2 0 1).sess
      (revealCell (startSession 4 1 {(0, 0)} 10 1000).1
        (startSession 4 1 {(0, 0)} 10 1000).2 0 1).balance).outcome
      = some (Outcome.won, 1001) ∧
    (endScreen { defaultStats with balance := 1001 } [] Outcome.won 1001).1.total_earnings
      = 0 ∧
    (1001 : ℚ) - defaultStats.balance = 1 ∧ (0 : ℚ) ≠ 1 := by
  norm_num [startSession, revealCell, cashOut, endScreen, defaultStats, Prod.ext_iff]

/-- C2, amended: for a session concluded Won, end_screen bumps total_wins
by 1 and bumps total_earnings by final_balance minus the balance held when
end_screen is entered; both Won paths of game_loop credit the earnings into
the balance before calling end_screen with that same balance, so along them
the increment is 0 and total_earnings is unchanged. -/
theorem won_fold_increments (st : Stats) (lb : List ℚ) (f : ℚ) (s : Session)
    (b : ℚ) (hgo : s.game_over = false) :
    (endScreen st lb Outcome.won f).1.total_wins = st.total_wins + 1 ∧
    (endScreen st lb Outcome.won f).1.total_earnings
      = st.total_earnings + (f - st.balance) ∧
    (cashOut s b).outcome = some (Outcome.won, (cashOut s b).balance) ∧
    (endScreen { st with balance := (cashOut s b).balance } lb Outcome.won
        (cashOut s b).balance).1.total_earnings = st.total_earnings ∧
    (_check_game_won s.grid_size s.revealed s.mine_positions = true →
      (winStep s b).outcome = some (Outcome.won, (winStep s b).balance) ∧
      (endScreen { st with balance := (winStep s b).balance } lb Outcome.won
          (winStep s b).balance).1.total_earnings = st.total_earnings) := by
  refine ⟨by simp [endScreen], by simp [endScreen], by simp [cashOut, hgo],
    by simp [cashOut, hgo, endScreen], fun hw => ?_⟩
  constructor
  · simp [winStep, hw, hgo]
  · simp [winStep, hw, hgo, endScreen]

/-- Witness for the amended C2 theorem at a concrete Won session. -/
theorem won_fold_increments_witness :
    (endScreen defaultStats [] Outcome.won 1001).1.total_wins
      = defaultStats.total_wins + 1 ∧
    (endScreen { defaultStats with balance := (cashOut demoSession 990).balance } []
        Outcome.won (cashOut demoSession 990).balance).1.total_earnings
      = defaultStats.total_earnings := by
  have h := won_fold_increments defaultStats [] 1001 demoSession 990 rfl
  exact ⟨h.1, h.2.2.2.1⟩

/-- C3, counterexample: the claim says the effective mine count is the
input times the difficulty multiplier rounded to the nearest integer.  For
input 3 on Easy (multiplier 0.5) the code computes int(3 * 0.5) = int(1.5)
= 1 by truncation, while rounding 1.5 to the nearest integer gives 2 (both
under round-half-up, which is Mathlib's round, and Python's
round-half-to-even). -/
theorem mine_count_round_counterexample :
    minesFromInput 3 Difficulty.easy = 1 ∧
    round ((3 : ℚ) * diffMult Difficulty.easy) = 2 ∧ (1 : ℤ) ≠ 2 := by
  refine ⟨by norm_num [minesFromInput, diffMult], ?_, by decide⟩
  rw [round_eq]
  norm_num [diffMult]

/-- C3, amended: the effective mine count is the truncation toward zero of
mine_count_input * difficulty_multiplier (equal to the floor, since the
accepted inputs are non-negative), computed before the bound checks: any
mine count a successful submission hands to the session equals that floor
and has already passed 0 < mine_count < grid_size * grid_size, and the bet
passed both the balance and the positivity checks. -/
theorem mine_count_truncation (g mIn : Nat) (bet bal : ℚ) (d : Difficulty)
    (g' : Nat) (m' : ℤ) (b' : ℚ)
    (h : submitConfig g (some mIn) (some bet) d bal = Except.ok (g', m', b')) :
    m' = ⌊(mIn : ℚ) * diffMult d⌋ ∧ 0 < m' ∧ m' < (g : ℤ) * g ∧ g' = g ∧
    b' = bet ∧ bet ≤ bal ∧ 0 < bet := by
  by_cases h1 : bal < bet
  · simp [submitConfig, h1] at h
  · by_cases h2 : ((g : ℤ) * g ≤ minesFromInput mIn d)
    · simp [submitConfig, h1, h2] at h
    · by_cases h3 : (bet ≤ 0 ∨ minesFromInput mIn d ≤ 0)
      · simp [submitConfig, h1, h2, h3] at h
      · simp [submitConfig, h1, h2, h3] at h
        obtain ⟨rfl, rfl, rfl⟩ := h
        push_neg at h3
        exact ⟨rfl, h3.2, not_le.mp h2, rfl, rfl, not_lt.mp h1, h3.1⟩

/-- Witness for the amended C3 theorem: mine input 3 on Easy yields the
truncated count 1, accepted on a 5 x 5 grid with bet 10 from balance
1000. -/
theorem mine_count_truncation_witness :
    submitConfig 5 (some 3) (some 10) Difficulty.easy 1000 = Except.ok (5, 1, 10) ∧
    (1 : ℤ) = ⌊(3 : ℚ) * diffMult Difficulty.easy⌋ ∧ (0 : ℤ) < 1 ∧
    (1 : ℤ) < (5 : ℤ) * 5 := by
  have hc : submitConfig 5 (some 3) (some 10) Difficulty.easy 1000
      = Except.ok (5, 1, 10) := by
    norm_num [submitConfig, minesFromInput, diffMult]
  have h := mine_count_truncation 5 3 10 1000 Difficulty.easy 5 1 10 hc
  exact ⟨hc, h.1, h.2.1, h.2.2.1⟩

/-- C4, confirmed: a reveal of a safe, in-bounds, fresh cell in a running
session bumps the multiplier by exactly 0.1 and sets earnings to
min(earnings + bet * new multiplier, max_earnings), the clamp is never
changed by a reveal, the clamp is fixed at session start as
(grid_size^2 - mine_count) * bet * 2.0, and the earnings stay at or below
the clamp after any sequence of reveals from session start. -/
theorem safe_reveal_payout (s : Session) (b : ℚ) (r c : Nat) (g m : Nat)
    (mp : Finset (Nat × Nat)) (bet bal : ℚ) (ps : List (Nat × Nat))
    (hgo : s.game_over = false) (hr : r < s.grid_size) (hc : c < s.grid_size)
    (hrev : (r, c) ∉ s.revealed) (hsafe : (r, c) ∉ s.mine_positions)
    (hm : (m : ℚ) ≤ (g : ℚ) * g) (hbet : 0 ≤ bet) :
    (revealCell s b r c).sess.multiplier = s.multiplier + 1 / 10 ∧
    (revealCell s b r c).sess.earnings
      = min (s.earnings + s.bet_amount * (s.multiplier + 1 / 10)) s.max_earnings ∧
    (revealCell s b r c).sess.max_earnings = s.max_earnings ∧
    (startSession g m mp bet bal).1.max_earnings = ((g : ℚ) * g - m) * bet * 2 ∧
    (revealSeq (startSession g m mp bet bal).1 (startSession g m mp bet bal).2
        ps).1.earnings ≤ ((g : ℚ) * g - m) * bet * 2 := by
  have h0 : (0 : ℚ) ≤ ((g : ℚ) * g - m) * bet * 2 := by
    have hgm : (0 : ℚ) ≤ (g : ℚ) * g - m := by linarith
    have := mul_nonneg hgm hbet
    linarith
  have hseq := revealSeq_earnings_le ps (startSession g m mp bet bal).1
    (startSession g m mp bet bal).2 (by simpa [startSession] using h0)
  rw [revealSeq_max] at hseq
  refine ⟨?_, ?_, revealCell_max s b r c, rfl, by simpa [startSession] using hseq⟩
  · simp [revealCell, hgo, hr, hc, hrev, hsafe]
  · simp [revealCell, hgo, hr, hc, hrev, hsafe]

/-- Witness for the C4 theorem: one safe reveal on the sample state and a
two-click sequence from a fresh 4 x 4 session with one mine. -/
theorem safe_reveal_payout_witness :
    (revealCell demoSession 990 1 1).sess.multiplier
      = demoSession.multiplier + 1 / 10 ∧
    (revealSeq (startSession 4 1 {(0, 0)} 10 1000).1
        (startSession 4 1 {(0, 0)} 10 1000).2 [(0, 1), (0, 2)]).1.earnings
      ≤ ((4 : ℚ) * 4 - 1) * 10 * 2 := by
  have h := safe_reveal_payout demoSession 990 1 1 4 1 {(0, 0)} 10 1000
    [(0, 1), (0, 2)] rfl (by decide) (by decide) (by decide) (by decide)
    (by norm_num) (by norm_num)
  exact ⟨h.1, h.2.2.2.2⟩

/-- C5, confirmed: _check_game_won returns true exactly when every cell of
the board is revealed or a mine, and when it holds for a session that is
still running the per-frame check itself credits the earnings to the
balance and ends the session with a Won outcome carrying that balance, with
no cash-out command involved. -/
theorem check_won_iff_auto_win (n : Nat) (rev mp : Finset (Nat × Nat))
    (s : Session) (b : ℚ) (hgo : s.game_over = false)
    (hwin : _check_game_won s.grid_size s.revealed s.mine_positions = true) :
    (_check_game_won n rev mp = true ↔ ∀ p ∈ allCells n, p ∈ rev ∨ p ∈ mp) ∧
    (winStep s b).balance = b + s.earnings ∧
    (winStep s b).outcome = some (Outcome.won, b + s.earnings) := by
  refine ⟨by simp [_check_game_won], ?_, ?_⟩ <;> simp [winStep, hwin, hgo]

/-- Witness for the C5 theorem: the 2 x 2 board with one mine whose three
safe cells are revealed wins automatically. -/
theorem check_won_iff_auto_win_witness :
    (_check_game_won 2 {(0, 1), (1, 0), (1, 1)} {(0, 0)} = true ↔
      ∀ p ∈ allCells 2,
        p ∈ ({(0, 1), (1, 0), (1, 1)} : Finset (Nat × Nat)) ∨
        p ∈ ({(0, 0)} : Finset (Nat × Nat))) ∧
    (winStep demoWinSession 990).outcome = some (Outcome.won, 990 + 36) := by
  have h := check_won_iff_auto_win 2 {(0, 1), (1, 0), (1, 1)} {(0, 0)}
    demoWinSession 990 rfl (by decide)
  exact ⟨h.1, h.2.2⟩

/-- C6, counterexample: the claim says any malformed or unparseable stats
file content loads as the defaults without the error escaping.  A file
whose bytes are not valid text raises UnicodeDecodeError inside json.load;
that is a ValueError but neither a json.JSONDecodeError nor an OSError, so
the except clause of _load_stats does not catch it and it propagates.  A
file holding valid JSON that is not an object is returned as-is instead of
the defaults, and the .get field reads in __init__ then raise
AttributeError. -/
theorem stats_load_crash_counterexample :
    initStats StatsFileState.notUtf8 = Except.error PyExc.unicodeDecodeError ∧
    initStats (StatsFileState.parsed (PyVal.arr 2))
      = Except.error PyExc.attributeError :=
  ⟨rfl, rfl⟩

/-- C6, amended: a missing stats file, an OSError while opening or reading
it, and content that fails JSON parsing all yield the fully defaulted
profile with no error propagated; undecodable bytes and parseable non-object
JSON are not covered and escape as exceptions. -/
theorem stats_load_defaults_on_failure (fs : StatsFileState)
    (h : fs = StatsFileState.missing ∨ fs = StatsFileState.osError ∨
      fs = StatsFileState.badJson) :
    initStats fs = Except.ok defaultStats := by
  rcases h with rfl | rfl | rfl <;> rfl

/-- Witness for the amended C6 theorem: a JSON syntax error loads the
defaults. -/
theorem stats_load_defaults_on_failure_witness :
    initStats StatsFileState.badJson = Except.ok defaultStats :=
  stats_load_defaults_on_failure StatsFileState.badJson (Or.inr (Or.inr rfl))

/-- C7, counterexample: the claim says a promo claim succeeds only when the
entered code equals the current time string.  At 3:05 PM the expected code
is "3:05 PM", yet entering the lower-case "3:05 pm" succeeds and credits
500, because line 199 upper-cases and strips the entered text before
comparing; so success does not require literal equality. -/
theorem promo_code_equality_counterexample :
    (claimPromo defaultStats "3:05 pm" 15 5).2 = PromoResult.claimed ∧
    (claimPromo defaultStats "3:05 pm" 15 5).1.balance
      = defaultStats.balance + 500 ∧
    "3:05 pm" ≠ currentPromoCode 15 5 := by
  refine ⟨?_, ?_, by decide⟩
  · norm_num [claimPromo, defaultStats]
    decide
  · norm_num [claimPromo, defaultStats]
    rw [if_pos (show upperStr (stripEnds "3:05 pm") = currentPromoCode 15 5 by decide)]

/-- C7, amended: a promo claim succeeds exactly when promocode_used is
false and the entered code, stripped of surrounding whitespace and
upper-cased, equals the current wall-clock time formatted as a 12-hour
H:MM AM/PM string with no leading zero on the hour; on success the balance
grows by exactly 500 and promocode_used becomes true; when already used the
state is unchanged and AlreadyUsed is reported; on a mismatch the state is
unchanged and InvalidCode is reported. -/
theorem promo_claim_behavior (st : Stats) (entered : String) (hh mm : Nat) :
    ((claimPromo st entered hh mm).2 = PromoResult.claimed ↔
      st.promocode_used = false ∧
      upperStr (stripEnds entered) = currentPromoCode hh mm) ∧
    (st.promocode_used = true →
      claimPromo st entered hh mm = (st, PromoResult.alreadyUsed)) ∧
    (st.promocode_used = false →
      upperStr (stripEnds entered) ≠ currentPromoCode hh mm →
      claimPromo st entered hh mm = (st, PromoResult.invalidCode)) ∧
    ((claimPromo st entered hh mm).2 = PromoResult.claimed →
      (claimPromo st entered hh mm).1.balance = st.balance + 500 ∧
      (claimPromo st entered hh mm).1.promocode_used = true) := by
  by_cases hu : st.promocode_used <;>
    by_cases he : upperStr (stripEnds entered) = currentPromoCode hh mm <;>
      simp [claimPromo, hu, he]

/-- Witness for the amended C7 theorem: the exact code "3:05 PM" entered at
3:05 PM on a fresh profile is claimed. -/
theorem promo_claim_behavior_witness :
    (claimPromo defaultStats "3:05 PM" 15 5).2 = PromoResult.claimed :=
  (promo_claim_behavior defaultStats "3:05 PM" 15 5).1.mpr ⟨rfl, by decide⟩

/-- C8, confirmed: appending to the leaderboard never grows it past 5
entries; appending to a full leaderboard drops exactly the oldest entry by
insertion order; the displayed (and saved) view is a descending-sorted
permutation of the stored insertion order, computed without mutating it;
and loading from any sequence of parsed lines yields at most 5 entries. -/
theorem leaderboard_capacity_evict_display (lb : List ℚ) (v : ℚ)
    (lines : List (Option ℚ)) :
    (lbAppend lb v).length ≤ 5 ∧
    (lb.length = 5 → lbAppend lb v = lb.drop 1 ++ [v]) ∧
    (displayLeaderboard lb).Perm lb ∧
    (displayLeaderboard lb).Sorted (· ≥ ·) ∧
    (loadLeaderboard lines).length ≤ 5 := by
  have ht : IsTotal ℚ (· ≥ ·) := ⟨fun a b => le_total b a⟩
  have htr : IsTrans ℚ (· ≥ ·) := ⟨fun a b c h1 h2 => le_trans h2 h1⟩
  refine ⟨?_, ?_, List.perm_insertionSort _ lb, List.sorted_insertionSort _ lb,
    loadLeaderboard_length_le lines⟩
  · simp [lbAppend]
    omega
  · intro h
    simp [lbAppend, h, List.drop_append_eq_append_drop]

/-- Witness for the C8 theorem: appending 6 to the full leaderboard
[1, 2, 3, 4, 5] evicts the oldest entry 1. -/
theorem leaderboard_capacity_evict_display_witness :
    lbAppend [1, 2, 3, 4, 5] 6 = ([1, 2, 3, 4, 5] : List ℚ).drop 1 ++ [6] ∧
    ([1, 2, 3, 4, 5] : List ℚ).length = 5 :=
  ⟨(leaderboard_capacity_evict_display [1, 2, 3, 4, 5] 6 []).2.1 rfl, rfl⟩

/-- C9, confirmed: the default selection is grid size 5; each press of G
steps the index cyclically by one modulo 5; every reachable selection is a
member of GRID_OPTIONS; GRID_OPTIONS is exactly the set 4, 5, 6, 7, 8; and
every one of those dimensions is reachable. -/
theorem grid_options_cycle :
    selectedGrid 0 = 5 ∧
    (∀ k, gridIndexAfter (k + 1) = (gridIndexAfter k + 1) % 5) ∧
    (∀ k, selectedGrid k ∈ GRID_OPTIONS) ∧
    (∀ g, g ∈ GRID_OPTIONS ↔ (g = 4 ∨ g = 5 ∨ g = 6 ∨ g = 7 ∨ g = 8)) ∧
    (∀ g, g ∈ GRID_OPTIONS → ∃ k, selectedGrid k = g) := by
  refine ⟨rfl, ?_, ?_, ?_, ?_⟩
  · intro k
    show cycleGridIndex (gridIndexAfter k) = (gridIndexAfter k + 1) % 5
    simp [cycleGridIndex, GRID_OPTIONS]
  · intro k
    unfold selectedGrid
    rw [gridIndexAfter_eq]
    obtain h | h | h | h | h :
        (1 + k) % 5 = 0 ∨ (1 + k) % 5 = 1 ∨ (1 + k) % 5 = 2 ∨ (1 + k) % 5 = 3 ∨
          (1 + k) % 5 = 4 := by omega
    all_goals rw [h]; decide
  · intro g
    simp [GRID_OPTIONS]
  · intro g hg
    simp [GRID_OPTIONS] at hg
    obtain rfl | rfl | rfl | rfl | rfl := hg
    · exact ⟨4, by decide⟩
    · exact ⟨0, by decide⟩
    · exact ⟨1, by decide⟩
    · exact ⟨2, by decide⟩
    · exact ⟨3, by decide⟩

/-- Witness for the C9 theorem: dimension 4 is in GRID_OPTIONS and is
reached after four presses of G. -/
theorem grid_options_cycle_witness :
    (4 ∈ GRID_OPTIONS) ∧ ∃ k, selectedGrid k = 4 :=
  ⟨by decide, grid_options_cycle.2.2.2.2 4 (by decide)⟩

/-- C10, confirmed: a freshly defaulted profile (stats file missing) starts
with balance 1000, high score 0, sound on, all counters 0, total earnings 0
and the promo code unused. -/
theorem fresh_profile_defaults :
    initStats StatsFileState.missing = Except.ok defaultStats ∧
    defaultStats.balance = 1000 ∧ defaultStats.high_score = 0 ∧
    defaultStats.sound_enabled = true ∧ defaultStats.total_games = 0 ∧
    defaultStats.total_wins = 0 ∧ defaultStats.total_losses = 0 ∧
    defaultStats.total_earnings = 0 ∧ defaultStats.promocode_used = false :=
  ⟨rfl, rfl, rfl, rfl, rfl, rfl, rfl, rfl, rfl⟩

end MineGem
